import Mathlib

/-!
Shallow embedding of the HttpCallImpl state machine from
src/envoy/http/service_control/http_call.cc.

The component performs one logical outbound HTTP call realized by one or
more sequential physical attempts under a retry policy, with a tracing
span per attempt, a bearer token fetched per attempt, external
cancellation, and deferred self-disposal.  The external collaborators
(async transport client, tracer, dispatcher, token function) are modeled
by recording every interaction with them in an event trace; the
environment drives the machine by delivering exactly one outcome per
outstanding physical request, mirroring the AsyncClient callback
contract.
-/

namespace SvcCtrl

/-- Model of the google protobuf util error Code enum.  The source only
ever constructs OK and INTERNAL; the remaining constructors are listed
so that the choice of INTERNAL on every failure path is an actual choice
in the model, not a degenerate one. -/
inductive ErrCode
  | ok
  | cancelled
  | invalidArgument
  | deadlineExceeded
  | unauthenticated
  | unavailable
  | internal
  deriving DecidableEq

/-- Model of google protobuf util Status: a code plus a message. -/
structure RpcStatus where
  code : ErrCode
  message : String
  deriving DecidableEq

/-- Status::OK. -/
def statusOK : RpcStatus := ⟨ErrCode.ok, ""⟩

/-- The status built in makeOneCall when the token function returns an
empty credential. -/
def statusAuth : RpcStatus :=
  ⟨ErrCode.internal, "Missing access token for service control call"⟩

/-- The status built in onSuccess (non-OK, non-retried) and in onFailure
(non-retried). -/
def statusFail : RpcStatus :=
  ⟨ErrCode.internal, "Failed to call service control"⟩

/-- Tag keys and values of the external Envoy tracing library
(Tracing::Tags); the exact strings live outside this repository, only
their identities matter here. -/
def tagComponent : String := "component"

def tagProxy : String := "proxy"

def tagUpstreamCluster : String := "upstream_cluster"

def tagHttpUrl : String := "http.url"

def tagHttpMethod : String := "http.method"

def tagHttpStatusCode : String := "http.status_code"

def tagError : String := "error"

def tagCanceled : String := "canceled"

/-- enumToInt(Http::Code::OK). -/
def httpCodeOK : Nat := 200

/-- Observable interactions with the external collaborators, recorded in
program order: tracer calls (spawn child span, set tag, finish span),
transport sends and transport cancels, retry decisions, the completion
callback on_done_, the deferred-delete request handed to the dispatcher,
and outcome deliveries performed by the environment. -/
inductive Ev
  | spawnSpan (name : String)
  | setTag (key value : String)
  | finishSpan
  | send (attempt : Nat)
  | retryDecision
  | onDone (st : RpcStatus) (body : String)
  | transportCancel
  | deferredDelete
  | deliver
  deriving DecidableEq

/-- Immutable per-call configuration: the initial value of retries_, the
concatenated request uri (http_uri_.uri() + suffix_url), the destination
cluster, the trace operation name, and the token function.  The token
function is modeled per fetch index (the value of request_count_ at the
fetch) because the credential may change between attempts. -/
structure CallConfig where
  retries : Nat
  uri : String
  cluster : String
  traceOperationName : String
  tokenFn : Nat → String

/-- Mutable state of HttpCallImpl: the remaining retries_, the sent
request count request_count_, whether the transport handle request_ is
non-null, whether request_span_ is non-null (the source never nulls it
after the first spawn), and the recorded event trace. -/
structure CallState where
  retries : Nat
  requestCount : Nat
  requestActive : Bool
  spanSpawned : Bool
  trace : List Ev
  deriving DecidableEq

/-- Span name computed in makeOneCall: the operation name for attempt 1,
otherwise StrCat(op, " - Retry ", request_count_ - 1). -/
def spanName (cfg : CallConfig) (requestCount : Nat) : String :=
  if requestCount == 1 then cfg.traceOperationName
  else cfg.traceOperationName ++ " - Retry " ++ toString (requestCount - 1)

/-- HttpCallImpl::makeOneCall: increment request_count_, fetch the
token; when it is empty, invoke on_done_ with the missing-token INTERNAL
status and return at once (note: no deferredDelete on this path).
Otherwise spawn the attempt span, tag it with component, upstream
cluster, url and method, and send the request (request_ becomes
non-null). -/
def makeOneCall (cfg : CallConfig) (s : CallState) : CallState :=
  if (cfg.tokenFn (s.requestCount + 1)).isEmpty then
    { s with
      requestCount := s.requestCount + 1
      trace := s.trace ++ [Ev.onDone statusAuth ""] }
  else
    { s with
      requestCount := s.requestCount + 1
      requestActive := true
      spanSpawned := true
      trace := s.trace ++
        [Ev.spawnSpan (spanName cfg (s.requestCount + 1)),
         Ev.setTag tagComponent tagProxy,
         Ev.setTag tagUpstreamCluster cfg.cluster,
         Ev.setTag tagHttpUrl cfg.uri,
         Ev.setTag tagHttpMethod "POST",
         Ev.send (s.requestCount + 1)] }

/-- HttpCallImpl::attemptRetry: return false inside the client error
band [400, 500) and false when retries_ is zero (uint32, so the source
comparison retries_ <= 0 means equality with zero); otherwise decrement
retries_, reset() the handle, start a new attempt via makeOneCall and
return true. -/
def attemptRetry (cfg : CallConfig) (statusCode : Nat) (s : CallState) :
    Bool × CallState :=
  if 400 ≤ statusCode ∧ statusCode < 500 then (false, s)
  else if s.retries == 0 then (false, s)
  else
    (true, makeOneCall cfg
      { s with
        retries := s.retries - 1
        requestActive := false
        trace := s.trace ++ [Ev.retryDecision] })

/-- HttpCallImpl::onSuccess: tag the attempt span with the numeric
response status and finish it; on status 200 report Status::OK with the
body, reset() and deferred-delete; otherwise try a retry, and when none
happens report the INTERNAL failure status with the body, reset() and
deferred-delete. -/
def onSuccess (cfg : CallConfig) (statusCode : Nat) (body : String)
    (s : CallState) : CallState :=
  let s1 : CallState := { s with trace := s.trace ++
    [Ev.setTag tagHttpStatusCode (toString statusCode), Ev.finishSpan] }
  if statusCode == httpCodeOK then
    { s1 with
      requestActive := false
      trace := s1.trace ++ [Ev.onDone statusOK body, Ev.deferredDelete] }
  else
    match attemptRetry cfg statusCode s1 with
    | (true, s2) => s2
    | (false, s2) =>
      { s2 with
        requestActive := false
        trace := s2.trace ++ [Ev.onDone statusFail body, Ev.deferredDelete] }

/-- HttpCallImpl::onFailure: tag the attempt span with an error message
distinguishing a stream reset from any other network error and finish
it; then try a retry with status 0 (the status in the failure reason is
always 0), and when none happens report the INTERNAL failure status with
an empty body, reset() and deferred-delete. -/
def onFailure (cfg : CallConfig) (isReset : Bool) (s : CallState) :
    CallState :=
  let s1 : CallState := { s with trace := s.trace ++
    [Ev.setTag tagError
      (if isReset then "the stream has been reset"
       else "unknown network error"),
     Ev.finishSpan] }
  match attemptRetry cfg 0 s1 with
  | (true, s2) => s2
  | (false, s2) =>
    { s2 with
      requestActive := false
      trace := s2.trace ++ [Ev.onDone statusFail "", Ev.deferredDelete] }

/-- HttpCallImpl::cancel: when request_span_ is non-null tag it canceled
and finish it; when request_ is outstanding cancel it at the transport
and reset() the handle; always request deferred deletion.  on_done_ is
never invoked here. -/
def cancel (s : CallState) : CallState :=
  let s1 : CallState :=
    if s.spanSpawned then
      { s with trace := s.trace ++
        [Ev.setTag tagError tagCanceled, Ev.finishSpan] }
    else s
  let s2 : CallState :=
    if s1.requestActive then
      { s1 with
        requestActive := false
        trace := s1.trace ++ [Ev.transportCancel] }
    else s1
  { s2 with trace := s2.trace ++ [Ev.deferredDelete] }

/-- The state right after the constructor ran: full retry budget, no
request sent yet, no handle, no span, empty trace. -/
def initState (cfg : CallConfig) : CallState :=
  ⟨cfg.retries, 0, false, false, []⟩

/-- HttpCall::call, the public entry point: starts attempt 1. -/
def call (cfg : CallConfig) : CallState := makeOneCall cfg (initState cfg)

/-- One environment move for an outstanding physical request: deliver a
response (onSuccess), deliver a network failure (onFailure), or cancel
the logical call externally. -/
inductive EnvAction
  | respond (statusCode : Nat) (body : String)
  | netFail (isReset : Bool)
  | cancelCall
  deriving DecidableEq

/-- Environment driver: while a request is outstanding, consume the next
environment move, recording outcome deliveries; cancellation ends the
run at once (the object is handed to the dispatcher for deletion); once
no request is outstanding the call is over and nothing further happens. -/
def runActions (cfg : CallConfig) : List EnvAction → CallState → CallState
  | [], s => s
  | a :: rest, s =>
    if s.requestActive then
      match a with
      | EnvAction.respond statusCode body =>
        runActions cfg rest
          (onSuccess cfg statusCode body
            { s with trace := s.trace ++ [Ev.deliver] })
      | EnvAction.netFail r =>
        runActions cfg rest
          (onFailure cfg r { s with trace := s.trace ++ [Ev.deliver] })
      | EnvAction.cancelCall => cancel s
    else s

/-- A full run of the logical call: call() followed by the environment
moves. -/
def run (cfg : CallConfig) (acts : List EnvAction) : CallState :=
  runActions cfg acts (call cfg)

/-! Trace observers. -/

/-- Whether an event is a transport send. -/
def isSend : Ev → Bool
  | Ev.send _ => true
  | _ => false

/-- Whether an event is an invocation of the completion callback. -/
def isOnDone : Ev → Bool
  | Ev.onDone _ _ => true
  | _ => false

/-- Whether an event is a retry decision (a decrement of retries_). -/
def isRetry : Ev → Bool
  | Ev.retryDecision => true
  | _ => false

/-- Whether an event is a transport-level cancel of the handle. -/
def isTransportCancel : Ev → Bool
  | Ev.transportCancel => true
  | _ => false

/-- Whether an event is a deferred-delete request to the dispatcher. -/
def isDeferredDelete : Ev → Bool
  | Ev.deferredDelete => true
  | _ => false

/-- Whether an event is a completion callback carrying a status other
than the three statuses the source ever constructs. -/
def isBadDone : Ev → Bool
  | Ev.onDone st _ =>
    !(st == statusOK || st == statusAuth || st == statusFail)
  | _ => false

/-- Whether an event is a completion callback carrying Status::OK. -/
def isOkDone : Ev → Bool
  | Ev.onDone st _ => st == statusOK
  | _ => false

/-- Number of events of a trace satisfying a predicate. -/
def countEv (p : Ev → Bool) : List Ev → Nat
  | [] => 0
  | e :: t => (if p e then 1 else 0) + countEv p t

/-- One step of the alternation scan: a send is legal only while no
request is outstanding, a delivery only while one is; other events do
not change the in-flight state.  none marks a violation. -/
def altStep : Option Bool → Ev → Option Bool
  | none, _ => none
  | some false, Ev.send _ => some true
  | some true, Ev.send _ => none
  | some true, Ev.deliver => some false
  | some false, Ev.deliver => none
  | some b, _ => some b

/-- Scan a trace checking that sends and outcome deliveries strictly
alternate starting from the given in-flight state; on success returns
the in-flight state at the end. -/
def altScan (t : List Ev) (b : Bool) : Option Bool :=
  t.foldl altStep (some b)

/-- One step of the termination scan.  The pair carries whether a
terminator (a completion callback or a transport cancel) has been seen,
and whether a send occurred after one. -/
def satStep : Bool × Bool → Ev → Bool × Bool
  | (term, bad), e =>
    (term || isOnDone e || isTransportCancel e, bad || (term && isSend e))

/-- True when some transport send appears after a completion callback or
after a transport cancel. -/
def sendAfterTerm (t : List Ev) : Bool :=
  (t.foldl satStep (false, false)).2

/-! Basic trace lemmas. -/

theorem countEv_append (p : Ev → Bool) (t u : List Ev) :
    countEv p (t ++ u) = countEv p t + countEv p u := by
  induction t with
  | nil => simp [countEv]
  | cons e t ih => simp [countEv, ih, Nat.add_assoc]

theorem altScan_append (t u : List Ev) (b : Bool) :
    altScan (t ++ u) b = u.foldl altStep (altScan t b) := by
  simp [altScan, List.foldl_append]

theorem sat_append (t u : List Ev) :
    ((t ++ u).foldl satStep (false, false)) =
      u.foldl satStep (t.foldl satStep (false, false)) := by
  simp [List.foldl_append]

/-- A trace with no completion callback and no transport cancel leaves
the termination scan in the no-terminator state. -/
theorem sat_no_term (t : List Ev) : ∀ b : Bool,
    countEv isOnDone t = 0 → countEv isTransportCancel t = 0 →
    t.foldl satStep (false, b) = (false, b) := by
  induction t with
  | nil => intro b _ _; rfl
  | cons e rest ih =>
    intro b h1 h2
    simp only [countEv] at h1 h2
    cases hod : isOnDone e with
    | true => simp [hod] at h1
    | false =>
      cases htc : isTransportCancel e with
      | true => simp [htc] at h2
      | false =>
        simp only [hod, htc] at h1 h2
        simp only [List.foldl_cons]
        have hstep : satStep (false, b) e = (false, b) := by
          simp [satStep, hod, htc]
        rw [hstep]
        refine ih b ?_ ?_ <;> simp at h1 h2 <;> omega

@[simp] theorem altStep_none (e : Ev) : altStep none e = none := rfl

@[simp] theorem altStep_send_idle (n : Nat) :
    altStep (some false) (Ev.send n) = some true := rfl

@[simp] theorem altStep_send_busy (n : Nat) :
    altStep (some true) (Ev.send n) = none := rfl

@[simp] theorem altStep_deliver_busy :
    altStep (some true) Ev.deliver = some false := rfl

@[simp] theorem altStep_deliver_idle :
    altStep (some false) Ev.deliver = none := rfl

@[simp] theorem altStep_spawn (b : Bool) (n : String) :
    altStep (some b) (Ev.spawnSpan n) = some b := by cases b <;> rfl

@[simp] theorem altStep_setTag (b : Bool) (k v : String) :
    altStep (some b) (Ev.setTag k v) = some b := by cases b <;> rfl

@[simp] theorem altStep_finish (b : Bool) :
    altStep (some b) Ev.finishSpan = some b := by cases b <;> rfl

@[simp] theorem altStep_retry (b : Bool) :
    altStep (some b) Ev.retryDecision = some b := by cases b <;> rfl

@[simp] theorem altStep_onDone (b : Bool) (st : RpcStatus) (body : String) :
    altStep (some b) (Ev.onDone st body) = some b := by cases b <;> rfl

@[simp] theorem altStep_tcancel (b : Bool) :
    altStep (some b) Ev.transportCancel = some b := by cases b <;> rfl

@[simp] theorem altStep_defdel (b : Bool) :
    altStep (some b) Ev.deferredDelete = some b := by cases b <;> rfl

/-! The run invariant.  Inv holds at every point where control is back
with the environment; Final is what survives to the end of a run,
including runs ended by cancellation. -/

/-- Invariant at environment boundaries: the alternation scan agrees
with the in-flight flag; retries_ plus the retry decisions taken equals
the configured budget; at most one more send than retry decisions; the
completion callback has fired exactly once iff the call is over; no
transport cancel yet; no send after a terminator; every fired status is
one of the three the source constructs. -/
structure Inv (cfg : CallConfig) (s : CallState) : Prop where
  alt : altScan s.trace false = some s.requestActive
  budget : s.retries + countEv isRetry s.trace = cfg.retries
  sends : countEv isSend s.trace ≤ countEv isRetry s.trace + 1
  dones : countEv isOnDone s.trace = (if s.requestActive then 0 else 1)
  tcs : countEv isTransportCancel s.trace = 0
  sat : (s.trace.foldl satStep (false, false)).2 = false
  bad : countEv isBadDone s.trace = 0

/-- What holds of the final state of any run. -/
structure Final (cfg : CallConfig) (s : CallState) : Prop where
  alt : (altScan s.trace false).isSome = true
  budget : s.retries + countEv isRetry s.trace = cfg.retries
  sends : countEv isSend s.trace ≤ cfg.retries + 1
  dones_le : countEv isOnDone s.trace ≤ 1
  dones_term : s.requestActive = false →
    countEv isTransportCancel s.trace = 0 →
    countEv isOnDone s.trace = 1
  dones_cancel : countEv isTransportCancel s.trace ≠ 0 →
    countEv isOnDone s.trace = 0
  sat : sendAfterTerm s.trace = false
  bad : countEv isBadDone s.trace = 0

theorem inv_final (cfg : CallConfig) (s : CallState) (h : Inv cfg s) :
    Final cfg s := by
  refine ⟨?_, h.budget, ?_, ?_, ?_, ?_, ?_, h.bad⟩
  · rw [h.alt]; rfl
  · have := h.sends
    have := h.budget
    omega
  · rw [h.dones]; cases s.requestActive <;> simp
  · intro hact _
    rw [h.dones, hact]
    simp
  · intro htc
    exact absurd h.tcs htc
  · exact h.sat

/-- makeOneCall reestablishes the invariant from any state in which no
request is outstanding, the callback has not fired, and at most as many
sends as retry decisions have happened. -/
theorem makeOneCall_inv (cfg : CallConfig) (s : CallState)
    (hact : s.requestActive = false)
    (halt : altScan s.trace false = some false)
    (hbud : s.retries + countEv isRetry s.trace = cfg.retries)
    (hsend : countEv isSend s.trace ≤ countEv isRetry s.trace)
    (hdone : countEv isOnDone s.trace = 0)
    (htc : countEv isTransportCancel s.trace = 0)
    (hbad : countEv isBadDone s.trace = 0) :
    Inv cfg (makeOneCall cfg s) := by
  have hsat := sat_no_term s.trace false hdone htc
  unfold makeOneCall
  by_cases h : (cfg.tokenFn (s.requestCount + 1)).isEmpty = true
  · simp only [h, if_true]
    refine ⟨?_, ?_, ?_, ?_, ?_, ?_, ?_⟩ <;>
      simp [altScan_append, countEv_append, sat_append, halt, hsat, hact,
        countEv, satStep, isRetry, isSend, isOnDone, isTransportCancel,
        isBadDone] <;> omega
  · simp only [h, if_false]
    refine ⟨?_, ?_, ?_, ?_, ?_, ?_, ?_⟩ <;>
      simp [altScan_append, countEv_append, sat_append, halt, hsat, hact,
        countEv, satStep, isRetry, isSend, isOnDone, isTransportCancel,
        isBadDone] <;> omega

/-- attemptRetry declines inside the client error band or on an
exhausted budget, leaving the state unchanged. -/
theorem attemptRetry_no (cfg : CallConfig) (statusCode : Nat)
    (s : CallState)
    (h : (400 ≤ statusCode ∧ statusCode < 500) ∨ s.retries = 0) :
    attemptRetry cfg statusCode s = (false, s) := by
  unfold attemptRetry
  rcases h with h | h
  · simp [h]
  · by_cases hband : 400 ≤ statusCode ∧ statusCode < 500 <;> simp [hband, h]

/-- attemptRetry accepts outside the client error band while budget
remains: it decrements retries_, discards the handle, and starts the
next attempt. -/
theorem attemptRetry_yes (cfg : CallConfig) (statusCode : Nat)
    (s : CallState)
    (hband : ¬(400 ≤ statusCode ∧ statusCode < 500))
    (hbud : s.retries ≠ 0) :
    attemptRetry cfg statusCode s =
      (true, makeOneCall cfg
        { s with
          retries := s.retries - 1
          requestActive := false
          trace := s.trace ++ [Ev.retryDecision] }) := by
  unfold attemptRetry
  simp [hband, hbud]

/-- Delivering a response to an outstanding request preserves the
invariant. -/
theorem onSuccess_inv (cfg : CallConfig) (s : CallState)
    (statusCode : Nat) (body : String)
    (h : Inv cfg s) (hact : s.requestActive = true) :
    Inv cfg (onSuccess cfg statusCode body
      { s with trace := s.trace ++ [Ev.deliver] }) := by
  have hdone0 : countEv isOnDone s.trace = 0 := by
    rw [h.dones, hact]; simp
  have hsat := sat_no_term s.trace false hdone0 h.tcs
  have halt := h.alt
  rw [hact] at halt
  have hb := h.budget
  have hsd := h.sends
  have htc0 := h.tcs
  have hbd := h.bad
  unfold onSuccess
  by_cases h200 : (statusCode == httpCodeOK) = true
  · simp only [h200, if_true]
    refine ⟨?_, ?_, ?_, ?_, ?_, ?_, ?_⟩ <;>
      simp [altScan_append, countEv_append, sat_append, halt, hsat,
        countEv, satStep, isRetry, isSend, isOnDone, isTransportCancel,
        isBadDone] <;> omega
  · simp only [h200, if_false]
    by_cases hretry : (400 ≤ statusCode ∧ statusCode < 500) ∨ s.retries = 0
    · rw [attemptRetry_no cfg statusCode _ (by simpa using hretry)]
      refine ⟨?_, ?_, ?_, ?_, ?_, ?_, ?_⟩ <;>
        simp [altScan_append, countEv_append, sat_append, halt, hsat,
          countEv, satStep, isRetry, isSend, isOnDone, isTransportCancel,
          isBadDone] <;> omega
    · push_neg at hretry
      have hr2 : s.retries ≠ 0 := hretry.2
      rw [attemptRetry_yes cfg statusCode _ (by simpa using hretry.1)
        (by simpa using hr2)]
      apply makeOneCall_inv <;>
        simp [altScan_append, countEv_append, halt, countEv, isRetry,
          isSend, isOnDone, isTransportCancel, isBadDone, hdone0, h.tcs,
          h.bad] <;> omega

/-- Delivering a network failure to an outstanding request preserves
the invariant. -/
theorem onFailure_inv (cfg : CallConfig) (s : CallState) (isReset : Bool)
    (h : Inv cfg s) (hact : s.requestActive = true) :
    Inv cfg (onFailure cfg isReset
      { s with trace := s.trace ++ [Ev.deliver] }) := by
  have hdone0 : countEv isOnDone s.trace = 0 := by
    rw [h.dones, hact]; simp
  have hsat := sat_no_term s.trace false hdone0 h.tcs
  have halt := h.alt
  rw [hact] at halt
  have hb := h.budget
  have hsd := h.sends
  have htc0 := h.tcs
  have hbd := h.bad
  simp only [onFailure]
  by_cases hbud : s.retries = 0
  · rw [attemptRetry_no cfg 0 _ (by simp [hbud])]
    refine ⟨?_, ?_, ?_, ?_, ?_, ?_, ?_⟩ <;>
      simp [altScan_append, countEv_append, sat_append, halt, hsat,
        countEv, satStep, isRetry, isSend, isOnDone, isTransportCancel,
        isBadDone] <;> omega
  · rw [attemptRetry_yes cfg 0 _ (by omega) (by simpa using hbud)]
    apply makeOneCall_inv <;>
      simp [altScan_append, countEv_append, halt, countEv, isRetry,
        isSend, isOnDone, isTransportCancel, isBadDone, hdone0, h.tcs,
        h.bad] <;> omega

/-- Cancelling while a request is outstanding reaches a legal final
state directly: the callback never fires. -/
theorem cancel_final (cfg : CallConfig) (s : CallState)
    (h : Inv cfg s) (hact : s.requestActive = true) :
    Final cfg (cancel s) := by
  have hdone0 : countEv isOnDone s.trace = 0 := by
    rw [h.dones, hact]; simp
  have hsat := sat_no_term s.trace false hdone0 h.tcs
  have halt := h.alt
  rw [hact] at halt
  have hb := h.budget
  have hsd := h.sends
  have htc0 := h.tcs
  have hbd := h.bad
  unfold cancel
  by_cases hsp : s.spanSpawned = true
  · simp only [hsp, if_true, hact]
    refine ⟨?_, ?_, ?_, ?_, ?_, ?_, ?_, ?_⟩ <;>
      simp [sendAfterTerm, altScan_append, countEv_append, sat_append,
        halt, hsat, countEv, satStep, isRetry, isSend, isOnDone,
        isTransportCancel, isBadDone, hact] <;> omega
  · simp only [hsp, if_false, hact]
    refine ⟨?_, ?_, ?_, ?_, ?_, ?_, ?_, ?_⟩ <;>
      simp [sendAfterTerm, altScan_append, countEv_append, sat_append,
        halt, hsat, countEv, satStep, isRetry, isSend, isOnDone,
        isTransportCancel, isBadDone, hact] <;> omega

/-- The invariant holds right after call() started attempt 1. -/
theorem call_inv (cfg : CallConfig) : Inv cfg (call cfg) := by
  unfold call
  apply makeOneCall_inv <;> simp [initState, altScan, countEv]

/-- Any sequence of environment moves starting from an invariant state
ends in a legal final state. -/
theorem runActions_final (cfg : CallConfig) (acts : List EnvAction) :
    ∀ s : CallState, Inv cfg s → Final cfg (runActions cfg acts s) := by
  induction acts with
  | nil => intro s hs; exact inv_final cfg s hs
  | cons a rest ih =>
    intro s hs
    unfold runActions
    by_cases hact : s.requestActive = true
    · simp only [hact, if_true]
      cases a with
      | respond statusCode body =>
        have hstep := onSuccess_inv cfg s statusCode body hs hact
        rw [hact] at hstep
        exact ih _ hstep
      | netFail r =>
        have hstep := onFailure_inv cfg s r hs hact
        rw [hact] at hstep
        exact ih _ hstep
      | cancelCall => exact cancel_final cfg s hs hact
    · simp only [hact, if_false]
      exact inv_final cfg s hs

/-- Every full run of the logical call ends in a legal final state. -/
theorem run_final (cfg : CallConfig) (acts : List EnvAction) :
    Final cfg (run cfg acts) :=
  runActions_final cfg acts (call cfg) (call_inv cfg)

/-! Explicit state shapes of the individual transitions, shared by the
claim theorems below. -/

theorem makeOneCall_retries (cfg : CallConfig) (s : CallState) :
    (makeOneCall cfg s).retries = s.retries := by
  by_cases h : (cfg.tokenFn (s.requestCount + 1)).isEmpty = true <;>
    simp [makeOneCall, h]

theorem makeOneCall_requestCount (cfg : CallConfig) (s : CallState) :
    (makeOneCall cfg s).requestCount = s.requestCount + 1 := by
  by_cases h : (cfg.tokenFn (s.requestCount + 1)).isEmpty = true <;>
    simp [makeOneCall, h]

/-- makeOneCall never fires the completion callback with Status::OK. -/
theorem makeOneCall_okDone (cfg : CallConfig) (s : CallState) :
    countEv isOkDone (makeOneCall cfg s).trace =
      countEv isOkDone s.trace := by
  by_cases h : (cfg.tokenFn (s.requestCount + 1)).isEmpty = true <;>
    simp [makeOneCall, h, countEv_append, countEv, isOkDone] <;> decide

/-- onSuccess on status 200: report OK with the body, clear the handle,
schedule disposal. -/
theorem onSuccess_ok_state (cfg : CallConfig) (s : CallState)
    (statusCode : Nat) (body : String) (h200 : statusCode = httpCodeOK) :
    onSuccess cfg statusCode body s =
      { s with
        requestActive := false
        trace := s.trace ++
          [Ev.setTag tagHttpStatusCode (toString statusCode), Ev.finishSpan,
           Ev.onDone statusOK body, Ev.deferredDelete] } := by
  simp [onSuccess, h200]

/-- onSuccess on a non-200 status that is not retried: report the
INTERNAL failure status with the body, clear the handle, schedule
disposal. -/
theorem onSuccess_noRetry_state (cfg : CallConfig) (s : CallState)
    (statusCode : Nat) (body : String) (hne : statusCode ≠ httpCodeOK)
    (hno : (400 ≤ statusCode ∧ statusCode < 500) ∨ s.retries = 0) :
    onSuccess cfg statusCode body s =
      { s with
        requestActive := false
        trace := s.trace ++
          [Ev.setTag tagHttpStatusCode (toString statusCode), Ev.finishSpan,
           Ev.onDone statusFail body, Ev.deferredDelete] } := by
  have hbeq : (statusCode == httpCodeOK) = false := by
    simpa using hne
  simp only [onSuccess, hbeq, Bool.false_eq_true, if_false]
  rw [attemptRetry_no cfg statusCode _ (by simpa using hno)]
  simp

/-- onSuccess on a non-200 status that is retried: a fresh attempt is
started after decrementing retries_ and discarding the handle. -/
theorem onSuccess_retry_state (cfg : CallConfig) (s : CallState)
    (statusCode : Nat) (body : String) (hne : statusCode ≠ httpCodeOK)
    (hband : ¬(400 ≤ statusCode ∧ statusCode < 500))
    (hbud : s.retries ≠ 0) :
    onSuccess cfg statusCode body s =
      makeOneCall cfg
        { s with
          retries := s.retries - 1
          requestActive := false
          trace := s.trace ++
            [Ev.setTag tagHttpStatusCode (toString statusCode),
             Ev.finishSpan, Ev.retryDecision] } := by
  have hbeq : (statusCode == httpCodeOK) = false := by
    simpa using hne
  simp only [onSuccess, hbeq, Bool.false_eq_true, if_false]
  rw [attemptRetry_yes cfg statusCode _ (by simpa using hband)
    (by simpa using hbud)]
  simp

/-- onFailure when not retried: report the INTERNAL failure status with
an empty body, clear the handle, schedule disposal. -/
theorem onFailure_noRetry_state (cfg : CallConfig) (s : CallState)
    (isReset : Bool) (hbud : s.retries = 0) :
    onFailure cfg isReset s =
      { s with
        requestActive := false
        trace := s.trace ++
          [Ev.setTag tagError
            (if isReset then "the stream has been reset"
             else "unknown network error"), Ev.finishSpan,
           Ev.onDone statusFail "", Ev.deferredDelete] } := by
  simp only [onFailure]
  rw [attemptRetry_no cfg 0 _ (by simp [hbud])]
  simp

/-- onFailure while budget remains: always retried, since the status
used for eligibility is 0. -/
theorem onFailure_retry_state (cfg : CallConfig) (s : CallState)
    (isReset : Bool) (hbud : s.retries ≠ 0) :
    onFailure cfg isReset s =
      makeOneCall cfg
        { s with
          retries := s.retries - 1
          requestActive := false
          trace := s.trace ++
            [Ev.setTag tagError
              (if isReset then "the stream has been reset"
               else "unknown network error"), Ev.finishSpan,
             Ev.retryDecision] } := by
  simp only [onFailure]
  rw [attemptRetry_yes cfg 0 _ (by omega) (by simpa using hbud)]
  simp

/-- The full effect of cancel as one record. -/
theorem cancel_state (s : CallState) :
    cancel s =
      { s with
        requestActive := false
        trace := s.trace ++
          (if s.spanSpawned then
            [Ev.setTag tagError tagCanceled, Ev.finishSpan] else []) ++
          (if s.requestActive then [Ev.transportCancel] else []) ++
          [Ev.deferredDelete] } := by
  by_cases hsp : s.spanSpawned = true <;>
    by_cases hact : s.requestActive = true <;>
      simp [cancel, hsp, hact]

/-- Taking two events past a trace prefix isolates the two events the
transition appended first. -/
theorem take_prefix_two (t u : List Ev) (a b : Ev) :
    (t ++ (a :: b :: u)).take (t.length + 2) = t ++ [a, b] := by
  rw [show t ++ (a :: b :: u) = (t ++ [a, b]) ++ u by simp]
  exact List.take_left' (by simp)

/-! Concrete data for the witness theorems. -/

/-- A configuration whose token function always yields a credential. -/
def cfgTok : CallConfig :=
  ⟨2, "http://svc/path", "svc-cluster", "svc call", fun _ => "tok"⟩

/-- A configuration whose token function always yields the empty
credential. -/
def cfgNoTok : CallConfig :=
  ⟨3, "http://svc/path", "svc-cluster", "svc call", fun _ => ""⟩

/-- A reachable state with an exhausted budget and an outstanding
request. -/
def stExhausted : CallState := ⟨0, 1, true, true, []⟩

/-! The claims. -/

/-- C1: after a non-success outcome a retry occurs iff the observed
status lies outside the client error band [400, 500) and the remaining
budget is positive; each retry decrements the budget by exactly one and
starts a new attempt; every run performs at most retries + 1 transport
sends; once the budget is exhausted the completion callback reports an
INTERNAL-class error, for a non-200 response as well as for a network
failure. -/
theorem C1_retry_eligibility (cfg : CallConfig) (s : CallState)
    (statusCode : Nat) (body : String) (isReset : Bool)
    (acts : List EnvAction) :
    ((attemptRetry cfg statusCode s).1 = true ↔
      (¬(400 ≤ statusCode ∧ statusCode < 500) ∧ 0 < s.retries)) ∧
    ((attemptRetry cfg statusCode s).1 = true →
      (attemptRetry cfg statusCode s).2.retries + 1 = s.retries ∧
      (attemptRetry cfg statusCode s).2.requestCount =
        s.requestCount + 1) ∧
    countEv isSend (run cfg acts).trace ≤ cfg.retries + 1 ∧
    (s.retries = 0 → statusCode ≠ httpCodeOK →
      (onSuccess cfg statusCode body s).trace = s.trace ++
        [Ev.setTag tagHttpStatusCode (toString statusCode), Ev.finishSpan,
         Ev.onDone statusFail body, Ev.deferredDelete]) ∧
    (s.retries = 0 →
      (onFailure cfg isReset s).trace = s.trace ++
        [Ev.setTag tagError
          (if isReset then "the stream has been reset"
           else "unknown network error"), Ev.finishSpan,
         Ev.onDone statusFail "", Ev.deferredDelete]) := by
  refine ⟨?_, ?_, (run_final cfg acts).sends, ?_, ?_⟩
  · constructor
    · intro h
      by_cases hband : 400 ≤ statusCode ∧ statusCode < 500
      · rw [attemptRetry_no cfg statusCode s (Or.inl hband)] at h
        simp at h
      · by_cases hbud : s.retries = 0
        · rw [attemptRetry_no cfg statusCode s (Or.inr hbud)] at h
          simp at h
        · exact ⟨hband, Nat.pos_of_ne_zero hbud⟩
    · rintro ⟨hband, hbud⟩
      rw [attemptRetry_yes cfg statusCode s hband (by omega)]
  · intro h
    by_cases hband : 400 ≤ statusCode ∧ statusCode < 500
    · rw [attemptRetry_no cfg statusCode s (Or.inl hband)] at h
      simp at h
    · by_cases hbud : s.retries = 0
      · rw [attemptRetry_no cfg statusCode s (Or.inr hbud)] at h
        simp at h
      · rw [attemptRetry_yes cfg statusCode s hband hbud]
        simp [makeOneCall_retries, makeOneCall_requestCount]
        omega
  · intro h0 hne
    rw [onSuccess_noRetry_state cfg s statusCode body hne (Or.inr h0)]
  · intro h0
    rw [onFailure_noRetry_state cfg s isReset h0]

/-- C1 witness: a 503 on a live budget is retried with the budget
decremented; a run of three 503 responses stays within retries + 1
sends; a 503 on an exhausted budget reports the INTERNAL failure. -/
theorem C1_witness :
    (attemptRetry cfgTok 503 (call cfgTok)).1 = true ∧
    (attemptRetry cfgTok 503 (call cfgTok)).2.retries + 1 =
      (call cfgTok).retries ∧
    countEv isSend (run cfgTok
      [EnvAction.respond 503 "a", EnvAction.respond 503 "b",
       EnvAction.respond 503 "c"]).trace ≤ cfgTok.retries + 1 ∧
    (onSuccess cfgTok 503 "b" stExhausted).trace =
      [Ev.setTag tagHttpStatusCode "503", Ev.finishSpan,
       Ev.onDone statusFail "b", Ev.deferredDelete] := by
  refine ⟨?_, ?_, ?_, ?_⟩
  · exact (C1_retry_eligibility cfgTok (call cfgTok) 503 "b" true
      []).1.mpr (by decide)
  · exact ((C1_retry_eligibility cfgTok (call cfgTok) 503 "b" true
      []).2.1 ((C1_retry_eligibility cfgTok (call cfgTok) 503 "b" true
      []).1.mpr (by decide))).1
  · exact (C1_retry_eligibility cfgTok (call cfgTok) 503 "b" true
      [EnvAction.respond 503 "a", EnvAction.respond 503 "b",
       EnvAction.respond 503 "c"]).2.2.1
  · have h := (C1_retry_eligibility cfgTok stExhausted 503 "b" true
      []).2.2.2.1 rfl (by decide)
    simpa using h

/-- C2: every run that has terminated other than by cancellation fired
the completion callback exactly once; a run terminated by cancel fired
it zero times; no run fires it more than once; and no transport send
ever follows a completion callback or a transport cancel. -/
theorem C2_onDone_exactly_once (cfg : CallConfig)
    (acts : List EnvAction) :
    countEv isOnDone (run cfg acts).trace ≤ 1 ∧
    ((run cfg acts).requestActive = false →
      countEv isTransportCancel (run cfg acts).trace = 0 →
      countEv isOnDone (run cfg acts).trace = 1) ∧
    (countEv isTransportCancel (run cfg acts).trace ≠ 0 →
      countEv isOnDone (run cfg acts).trace = 0) ∧
    sendAfterTerm (run cfg acts).trace = false := by
  have hf := run_final cfg acts
  exact ⟨hf.dones_le, hf.dones_term, hf.dones_cancel, hf.sat⟩

/-- C2 witness: a successful run fires the callback exactly once; a run
ended by cancel fires it zero times. -/
theorem C2_witness :
    countEv isOnDone (run cfgTok [EnvAction.respond 200 "OK"]).trace
      = 1 ∧
    countEv isOnDone (run cfgTok [EnvAction.cancelCall]).trace = 0 := by
  refine ⟨?_, ?_⟩
  · exact (C2_onDone_exactly_once cfgTok
      [EnvAction.respond 200 "OK"]).2.1 (by decide) (by decide)
  · exact (C2_onDone_exactly_once cfgTok
      [EnvAction.cancelCall]).2.2.1 (by decide)

/-- C3: whenever the token fetched for the next attempt is empty, the
attempt fails at once: exactly one completion callback with the
INTERNAL missing-token status and an empty body is appended,
synchronously; no span is spawned, no transport send happens, and the
handle state is untouched. -/
theorem C3_empty_token (cfg : CallConfig) (s : CallState)
    (h : (cfg.tokenFn (s.requestCount + 1)).isEmpty = true) :
    (makeOneCall cfg s).trace = s.trace ++ [Ev.onDone statusAuth ""] ∧
    (makeOneCall cfg s).spanSpawned = s.spanSpawned ∧
    (makeOneCall cfg s).requestActive = s.requestActive ∧
    (makeOneCall cfg s).requestCount = s.requestCount + 1 ∧
    countEv isSend (makeOneCall cfg s).trace =
      countEv isSend s.trace := by
  refine ⟨?_, ?_, ?_, ?_, ?_⟩ <;>
    simp [makeOneCall, h, countEv_append, countEv, isSend]

/-- C3 witness: the empty-token failure on the very first attempt. -/
theorem C3_witness :
    (makeOneCall cfgNoTok (initState cfgNoTok)).trace =
      [Ev.onDone statusAuth ""] ∧
    (makeOneCall cfgNoTok (initState cfgNoTok)).spanSpawned = false ∧
    countEv isSend (makeOneCall cfgNoTok (initState cfgNoTok)).trace
      = 0 := by
  have h := C3_empty_token cfgNoTok (initState cfgNoTok) (by decide)
  exact ⟨by simpa using h.1, by simpa using h.2.1, by simpa using h.2.2.2.2⟩

/-- C4: a transport failure tags the attempt span with a message
distinguishing a stream reset from other network errors and finishes it;
retry eligibility is evaluated at status 0, so it succeeds exactly when
budget remains; with budget it starts a fresh attempt, without budget
the callback reports the INTERNAL failure with an empty body. -/
theorem C4_transport_failure (cfg : CallConfig) (s : CallState)
    (isReset : Bool) :
    ((onFailure cfg isReset s).trace.take (s.trace.length + 2) =
      s.trace ++
        [Ev.setTag tagError
          (if isReset then "the stream has been reset"
           else "unknown network error"), Ev.finishSpan]) ∧
    ((attemptRetry cfg 0 s).1 = true ↔ 0 < s.retries) ∧
    (0 < s.retries →
      onFailure cfg isReset s = makeOneCall cfg
        { s with
          retries := s.retries - 1
          requestActive := false
          trace := s.trace ++
            [Ev.setTag tagError
              (if isReset then "the stream has been reset"
               else "unknown network error"), Ev.finishSpan,
             Ev.retryDecision] }) ∧
    (s.retries = 0 →
      (onFailure cfg isReset s).trace = s.trace ++
        [Ev.setTag tagError
          (if isReset then "the stream has been reset"
           else "unknown network error"), Ev.finishSpan,
         Ev.onDone statusFail "", Ev.deferredDelete]) := by
  refine ⟨?_, ?_, ?_, ?_⟩
  · by_cases hbud : s.retries = 0
    · rw [onFailure_noRetry_state cfg s isReset hbud]
      exact take_prefix_two s.trace _ _ _
    · rw [onFailure_retry_state cfg s isReset hbud]
      by_cases htok :
          (cfg.tokenFn (s.requestCount + 1)).isEmpty = true <;>
        simp only [makeOneCall, htok, Bool.false_eq_true, if_true,
          if_false] <;>
        simp only [List.append_assoc, List.cons_append,
          List.nil_append] <;>
        exact take_prefix_two s.trace _ _ _
  · constructor
    · intro h
      by_cases hbud : s.retries = 0
      · rw [attemptRetry_no cfg 0 s (Or.inr hbud)] at h
        simp at h
      · exact Nat.pos_of_ne_zero hbud
    · intro h
      rw [attemptRetry_yes cfg 0 s (by omega) (by omega)]
  · intro h
    rw [onFailure_retry_state cfg s isReset (by omega)]
  · intro h0
    rw [onFailure_noRetry_state cfg s isReset h0]

/-- C4 witness: a stream reset with budget left retries; one with an
exhausted budget reports the INTERNAL failure with empty body. -/
theorem C4_witness :
    (attemptRetry cfgTok 0 (call cfgTok)).1 = true ∧
    (onFailure cfgTok true stExhausted).trace =
      [Ev.setTag tagError "the stream has been reset", Ev.finishSpan,
       Ev.onDone statusFail "", Ev.deferredDelete] ∧
    onFailure cfgTok false (call cfgTok) = makeOneCall cfgTok
      { call cfgTok with
        retries := (call cfgTok).retries - 1
        requestActive := false
        trace := (call cfgTok).trace ++
          [Ev.setTag tagError "unknown network error", Ev.finishSpan,
           Ev.retryDecision] } := by
  refine ⟨?_, ?_, ?_⟩
  · exact (C4_transport_failure cfgTok (call cfgTok) true).2.1.mpr
      (by decide)
  · have h := (C4_transport_failure cfgTok stExhausted true).2.2.2 rfl
    simpa using h
  · have h := (C4_transport_failure cfgTok (call cfgTok) false).2.2.1
      (by decide)
    simpa using h

@[simp] theorem statusFail_beq_ok : (statusFail == statusOK) = false := by
  decide

@[simp] theorem statusAuth_beq_ok : (statusAuth == statusOK) = false := by
  decide

/-- C5: every received response finishes the attempt span tagged with
the numeric status; the response counts as success exactly when the
status is 200, in which case the callback reports OK with the body;
any other status (2xx other than 200 and 3xx included) goes to retry
eligibility, never produces an OK callback, and when not retried the
callback reports the INTERNAL failure carrying the response body. -/
theorem C5_response_success_iff_200 (cfg : CallConfig) (s : CallState)
    (statusCode : Nat) (body : String) :
    ((onSuccess cfg statusCode body s).trace.take (s.trace.length + 2) =
      s.trace ++
        [Ev.setTag tagHttpStatusCode (toString statusCode),
         Ev.finishSpan]) ∧
    (statusCode = httpCodeOK →
      (onSuccess cfg statusCode body s).trace = s.trace ++
        [Ev.setTag tagHttpStatusCode (toString statusCode), Ev.finishSpan,
         Ev.onDone statusOK body, Ev.deferredDelete]) ∧
    (statusCode ≠ httpCodeOK →
      countEv isOkDone (onSuccess cfg statusCode body s).trace =
        countEv isOkDone s.trace) ∧
    (statusCode ≠ httpCodeOK →
      ((400 ≤ statusCode ∧ statusCode < 500) ∨ s.retries = 0) →
      (onSuccess cfg statusCode body s).trace = s.trace ++
        [Ev.setTag tagHttpStatusCode (toString statusCode), Ev.finishSpan,
         Ev.onDone statusFail body, Ev.deferredDelete]) ∧
    (statusCode ≠ httpCodeOK →
      ¬(400 ≤ statusCode ∧ statusCode < 500) → 0 < s.retries →
      onSuccess cfg statusCode body s = makeOneCall cfg
        { s with
          retries := s.retries - 1
          requestActive := false
          trace := s.trace ++
            [Ev.setTag tagHttpStatusCode (toString statusCode),
             Ev.finishSpan, Ev.retryDecision] }) := by
  refine ⟨?_, ?_, ?_, ?_, ?_⟩
  · by_cases h200 : statusCode = httpCodeOK
    · rw [onSuccess_ok_state cfg s statusCode body h200]
      exact take_prefix_two s.trace _ _ _
    · by_cases hretry : (400 ≤ statusCode ∧ statusCode < 500) ∨
          s.retries = 0
      · rw [onSuccess_noRetry_state cfg s statusCode body h200 hretry]
        exact take_prefix_two s.trace _ _ _
      · rw [not_or] at hretry
        rw [onSuccess_retry_state cfg s statusCode body h200 hretry.1
          hretry.2]
        by_cases htok :
            (cfg.tokenFn (s.requestCount + 1)).isEmpty = true <;>
          simp only [makeOneCall, htok, Bool.false_eq_true, if_true,
            if_false] <;>
          simp only [List.append_assoc, List.cons_append,
            List.nil_append] <;>
          exact take_prefix_two s.trace _ _ _
  · intro h200
    rw [onSuccess_ok_state cfg s statusCode body h200]
  · intro hne
    by_cases hretry : (400 ≤ statusCode ∧ statusCode < 500) ∨
        s.retries = 0
    · rw [onSuccess_noRetry_state cfg s statusCode body hne hretry]
      simp [countEv_append, countEv, isOkDone]
    · rw [not_or] at hretry
      rw [onSuccess_retry_state cfg s statusCode body hne hretry.1
        hretry.2, makeOneCall_okDone]
      simp [countEv_append, countEv, isOkDone]
  · intro hne hretry
    rw [onSuccess_noRetry_state cfg s statusCode body hne hretry]
  · intro hne hband hbud
    rw [onSuccess_retry_state cfg s statusCode body hne hband
      (by omega)]

/-- C5 witness: a 200 response reports OK with the body after tagging
the span with 200; a 201 response is not a success and is retried; a
404 response reports the INTERNAL failure with the body. -/
theorem C5_witness :
    (onSuccess cfgTok 200 "OK" (call cfgTok)).trace =
      (call cfgTok).trace ++
        [Ev.setTag tagHttpStatusCode "200", Ev.finishSpan,
         Ev.onDone statusOK "OK", Ev.deferredDelete] ∧
    onSuccess cfgTok 201 "x" (call cfgTok) = makeOneCall cfgTok
      { call cfgTok with
        retries := (call cfgTok).retries - 1
        requestActive := false
        trace := (call cfgTok).trace ++
          [Ev.setTag tagHttpStatusCode "201", Ev.finishSpan,
           Ev.retryDecision] } ∧
    (onSuccess cfgTok 404 "nf" (call cfgTok)).trace =
      (call cfgTok).trace ++
        [Ev.setTag tagHttpStatusCode "404", Ev.finishSpan,
         Ev.onDone statusFail "nf", Ev.deferredDelete] := by
  refine ⟨?_, ?_, ?_⟩
  · have h := (C5_response_success_iff_200 cfgTok (call cfgTok) 200
      "OK").2.1 rfl
    simpa using h
  · have h := (C5_response_success_iff_200 cfgTok (call cfgTok) 201
      "x").2.2.2.2 (by decide) (by decide) (by decide)
    simpa using h
  · have h := (C5_response_success_iff_200 cfgTok (call cfgTok) 404
      "nf").2.2.2.1 (by decide) (by decide)
    simpa using h

/-- C6: an attempt with sequence number n spawns a child span named
exactly the operation name when n = 1 and the operation name with
" - Retry (n-1)" when n > 1, tagged with the component identity, the
destination cluster, the full request uri and the POST method, followed
by the transport send of attempt n. -/
theorem C6_span_naming (cfg : CallConfig) (s : CallState)
    (h : (cfg.tokenFn (s.requestCount + 1)).isEmpty = false) :
    (makeOneCall cfg s).trace = s.trace ++
      [Ev.spawnSpan
        (if s.requestCount + 1 = 1 then cfg.traceOperationName
         else cfg.traceOperationName ++ " - Retry " ++
           toString (s.requestCount + 1 - 1)),
       Ev.setTag tagComponent tagProxy,
       Ev.setTag tagUpstreamCluster cfg.cluster,
       Ev.setTag tagHttpUrl cfg.uri,
       Ev.setTag tagHttpMethod "POST",
       Ev.send (s.requestCount + 1)] := by
  simp [makeOneCall, h, spanName]

/-- C6 witness: attempt 1 gets the bare operation name, attempt 3 gets
the name with Retry 2, both with the four tags and the send. -/
theorem C6_witness :
    (makeOneCall cfgTok (initState cfgTok)).trace =
      [Ev.spawnSpan "svc call",
       Ev.setTag tagComponent tagProxy,
       Ev.setTag tagUpstreamCluster "svc-cluster",
       Ev.setTag tagHttpUrl "http://svc/path",
       Ev.setTag tagHttpMethod "POST",
       Ev.send 1] ∧
    (makeOneCall cfgTok ⟨0, 2, false, true, []⟩).trace =
      [Ev.spawnSpan "svc call - Retry 2",
       Ev.setTag tagComponent tagProxy,
       Ev.setTag tagUpstreamCluster "svc-cluster",
       Ev.setTag tagHttpUrl "http://svc/path",
       Ev.setTag tagHttpMethod "POST",
       Ev.send 3] := by
  refine ⟨?_, ?_⟩
  · have h := C6_span_naming cfgTok (initState cfgTok) (by decide)
    simpa using h
  · have h := C6_span_naming cfgTok ⟨0, 2, false, true, []⟩ (by decide)
    simpa using h

/-- C7: cancel tags the span as canceled and finishes it exactly when a
span exists, cancels the transport request exactly when a handle is
outstanding and clears the handle, always schedules deferred
self-disposal (also with nothing outstanding), and never invokes the
completion callback. -/
theorem C7_cancel_contract (s : CallState) :
    (cancel s).trace = s.trace ++
      (if s.spanSpawned then
        [Ev.setTag tagError tagCanceled, Ev.finishSpan] else []) ++
      (if s.requestActive then [Ev.transportCancel] else []) ++
      [Ev.deferredDelete] ∧
    (cancel s).requestActive = false ∧
    countEv isOnDone (cancel s).trace = countEv isOnDone s.trace ∧
    countEv isTransportCancel (cancel s).trace =
      countEv isTransportCancel s.trace +
        (if s.requestActive then 1 else 0) ∧
    (cancel s).trace.getLast? = some Ev.deferredDelete := by
  rw [cancel_state]
  refine ⟨rfl, rfl, ?_, ?_, ?_⟩
  · by_cases hsp : s.spanSpawned = true <;>
      by_cases hact : s.requestActive = true <;>
        simp [hsp, hact, countEv_append, countEv, isOnDone]
  · by_cases hsp : s.spanSpawned = true <;>
      by_cases hact : s.requestActive = true <;>
        simp [hsp, hact, countEv_append, countEv, isTransportCancel]
  · simp

/-- C8: across every run the budget accounting is exact — the remaining
retries plus the retry decisions taken equal the configured budget, so
the count of decrements never exceeds the budget (a decrement happens
only while the budget is strictly positive and the counter never
wraps) — and transport sends and outcome deliveries strictly alternate,
so at most one attempt is ever in flight and a new attempt starts only
after the previous outcome was processed. -/
theorem C8_invariants (cfg : CallConfig) (acts : List EnvAction) :
    (run cfg acts).retries + countEv isRetry (run cfg acts).trace =
      cfg.retries ∧
    countEv isRetry (run cfg acts).trace ≤ cfg.retries ∧
    (altScan (run cfg acts).trace false).isSome = true := by
  have hf := run_final cfg acts
  refine ⟨hf.budget, ?_, hf.alt⟩
  have := hf.budget
  omega

/-- C9 counterexample: the immediate auth-failure path is terminal (the
completion callback fires) yet schedules no deferred disposal, against
the claim that disposal is scheduled on every terminal path. -/
theorem C9_counterexample :
    countEv isOnDone (run cfgNoTok []).trace = 1 ∧
    countEv isDeferredDelete (run cfgNoTok []).trace = 0 := by
  decide

/-- C9 (amended): on the terminal paths of success, non-retryable
failure, exhausted retries, and cancellation, disposal is scheduled on
the dispatcher as the last action after the callback, never
synchronously inside the transport callback; the immediate empty-token
auth failure path is the exception — its callback fires with no
disposal scheduled. -/
theorem C9_amended_disposal (cfg : CallConfig) (s : CallState)
    (statusCode : Nat) (body : String) (isReset : Bool) :
    (statusCode = httpCodeOK →
      (onSuccess cfg statusCode body s).trace.getLast? =
        some Ev.deferredDelete) ∧
    (statusCode ≠ httpCodeOK →
      ((400 ≤ statusCode ∧ statusCode < 500) ∨ s.retries = 0) →
      (onSuccess cfg statusCode body s).trace.getLast? =
        some Ev.deferredDelete) ∧
    (s.retries = 0 →
      (onFailure cfg isReset s).trace.getLast? =
        some Ev.deferredDelete) ∧
    (cancel s).trace.getLast? = some Ev.deferredDelete ∧
    ((cfg.tokenFn (s.requestCount + 1)).isEmpty = true →
      countEv isDeferredDelete (makeOneCall cfg s).trace =
        countEv isDeferredDelete s.trace ∧
      countEv isOnDone (makeOneCall cfg s).trace =
        countEv isOnDone s.trace + 1) := by
  refine ⟨?_, ?_, ?_, ?_, ?_⟩
  · intro h200
    rw [onSuccess_ok_state cfg s statusCode body h200]
    simp
  · intro hne hretry
    rw [onSuccess_noRetry_state cfg s statusCode body hne hretry]
    simp
  · intro h0
    rw [onFailure_noRetry_state cfg s isReset h0]
    simp
  · rw [cancel_state]
    simp
  · intro htok
    constructor <;>
      simp [makeOneCall, htok, countEv_append, countEv,
        isDeferredDelete, isOnDone]

/-- C9 witness: disposal is the last action after a 200 response, after
a 404 response, after an exhausted-budget network failure and after
cancel; the empty-token path fires the callback without scheduling
disposal. -/
theorem C9_witness :
    (onSuccess cfgTok 200 "OK" (call cfgTok)).trace.getLast? =
      some Ev.deferredDelete ∧
    (onSuccess cfgTok 404 "nf" (call cfgTok)).trace.getLast? =
      some Ev.deferredDelete ∧
    (onFailure cfgTok true stExhausted).trace.getLast? =
      some Ev.deferredDelete ∧
    (cancel (call cfgTok)).trace.getLast? = some Ev.deferredDelete ∧
    countEv isDeferredDelete
      (makeOneCall cfgNoTok (initState cfgNoTok)).trace = 0 ∧
    countEv isOnDone
      (makeOneCall cfgNoTok (initState cfgNoTok)).trace = 1 := by
  refine ⟨?_, ?_, ?_, ?_, ?_, ?_⟩
  · exact (C9_amended_disposal cfgTok (call cfgTok) 200 "OK" true).1 rfl
  · exact (C9_amended_disposal cfgTok (call cfgTok) 404 "nf" true).2.1
      (by decide) (by decide)
  · exact (C9_amended_disposal cfgTok stExhausted 200 "" true).2.2.1 rfl
  · exact (C9_amended_disposal cfgTok (call cfgTok) 200 "" true).2.2.2.1
  · exact (by simpa using ((C9_amended_disposal cfgNoTok
      (initState cfgNoTok) 200 "" true).2.2.2.2 (by decide)).1)
  · exact (by simpa using ((C9_amended_disposal cfgNoTok
      (initState cfgNoTok) 200 "" true).2.2.2.2 (by decide)).2)

/-- C10: the three terminal failure classes — empty-token auth failure,
non-retryable client error, and exhausted transient failure — all carry
statuses with the same INTERNAL code, differing only in their message
and attached body, so the status code alone cannot distinguish them;
and no run ever reports a status other than the three the source
constructs. -/
theorem C10_failures_all_internal (cfg : CallConfig) (s : CallState)
    (statusCode : Nat) (body : String) (isReset : Bool)
    (acts : List EnvAction) :
    ((cfg.tokenFn (s.requestCount + 1)).isEmpty = true →
      (makeOneCall cfg s).trace = s.trace ++
        [Ev.onDone statusAuth ""]) ∧
    (400 ≤ statusCode → statusCode < 500 →
      (onSuccess cfg statusCode body s).trace = s.trace ++
        [Ev.setTag tagHttpStatusCode (toString statusCode), Ev.finishSpan,
         Ev.onDone statusFail body, Ev.deferredDelete]) ∧
    (s.retries = 0 →
      (onFailure cfg isReset s).trace = s.trace ++
        [Ev.setTag tagError
          (if isReset then "the stream has been reset"
           else "unknown network error"), Ev.finishSpan,
         Ev.onDone statusFail "", Ev.deferredDelete]) ∧
    statusAuth.code = ErrCode.internal ∧
    statusFail.code = ErrCode.internal ∧
    statusAuth.message ≠ statusFail.message ∧
    countEv isBadDone (run cfg acts).trace = 0 := by
  refine ⟨?_, ?_, ?_, rfl, rfl, by decide, (run_final cfg acts).bad⟩
  · intro htok
    simp [makeOneCall, htok]
  · intro h4 h5
    rw [onSuccess_noRetry_state cfg s statusCode body
      (by simp only [httpCodeOK]; omega) (Or.inl ⟨h4, h5⟩)]
  · intro h0
    rw [onFailure_noRetry_state cfg s isReset h0]

/-- C10 witness: the auth failure and the two INTERNAL failure paths at
concrete inputs. -/
theorem C10_witness :
    (makeOneCall cfgNoTok (initState cfgNoTok)).trace =
      [Ev.onDone statusAuth ""] ∧
    (onSuccess cfgTok 404 "nf" stExhausted).trace =
      [Ev.setTag tagHttpStatusCode "404", Ev.finishSpan,
       Ev.onDone statusFail "nf", Ev.deferredDelete] ∧
    (onFailure cfgTok false stExhausted).trace =
      [Ev.setTag tagError "unknown network error", Ev.finishSpan,
       Ev.onDone statusFail "", Ev.deferredDelete] := by
  refine ⟨?_, ?_, ?_⟩
  · have h := (C10_failures_all_internal cfgNoTok (initState cfgNoTok)
      404 "" true []).1 (by decide)
    simpa using h
  · have h := (C10_failures_all_internal cfgTok stExhausted 404 "nf"
      true []).2.1 (by decide) (by decide)
    simpa using h
  · have h := (C10_failures_all_internal cfgTok stExhausted 404 "nf"
      false []).2.2.1 rfl
    simpa using h

end SvcCtrl
